import Mathlib

/-!
Shallow embedding of `settings.py` from the zk-ssg repository: the settings
round-trip and validation pipeline (load → edit → filter → validate → save).

Modelling choices, all driven by the Python source:

* A settings value is either a string or a boolean (`Value`); a settings
  mapping (a Python `dict` with insertion order) is an association list with
  unique keys (`Settings`).  Raw mappings returned by the GUI toolkit's
  `window.read()` may also use non-string keys (PySimpleGUI uses numeric
  indices for internal elements), hence `RawKey`.
* The persisted file `settings.json` is modelled as `Option Settings`:
  `none` is a missing file, `some s` a file whose JSON parses to `s`.
  `json.dump`/`json.load` on an object with string keys and string/boolean
  values is exact and order-preserving, so (de)serialisation is the identity
  in the model.
* Python exceptions are modelled with `Except SessErr`: `keyError` for the
  `KeyError` raised by `settings[name]` on a missing key, `indexError` for
  `key[0]` on an empty string, `valueError` for the bare `raise ValueError`
  on an invalid fallback option, `ioError` for an I/O failure while writing
  the file, and `blocked` when the modelled finite sequence of
  `window.read()` results is exhausted while the validation loop would keep
  waiting for user input.
* `datetime.now().year` is passed in as the parameter `year`; the sequence
  of `(event, values)` pairs produced by `window.read()` is passed in as the
  list `reads`; whether `json.dump` raises an I/O error is the parameter
  `saveFails`.
* `key[0].islower()` is modelled with `Char.isLower` (the ASCII reading);
  the schema and toolkit keys in this program are ASCII.
-/

/-- A settings value: Python values of the settings dict are `str` or `bool`. -/
inductive Value where
  | s (v : String)
  | b (v : Bool)
deriving DecidableEq, Repr

/-- A raw key in the mapping returned by `window.read()`: the application's own
string keys plus the toolkit's numeric internal keys. -/
inductive RawKey where
  | str (s : String)
  | int (n : Int)
deriving DecidableEq, Repr

/-- A settings mapping: a Python dict in insertion order, keys unique. -/
abbrev Settings := List (String × Value)

/-- A raw mapping as returned by `window.read()`. -/
abbrev RawSettings := List (RawKey × Value)

/-- Python exceptions and environment outcomes arising in `settings.py`. -/
inductive SessErr where
  | keyError
  | indexError
  | valueError
  | ioError
  | blocked
deriving DecidableEq, Repr

/-- Python dict lookup `d[k]` (as an `Option`). -/
def dictGet (d : Settings) (k : String) : Option Value :=
  match d with
  | [] => none
  | (k', v) :: rest => if k' = k then some v else dictGet rest k

/-- Python dict assignment `d[k] = v`: overwrites in place if `k` is present
(keeping its position), otherwise appends at the end. -/
def dictInsert (d : Settings) (k : String) (v : Value) : Settings :=
  if k ∈ d.map Prod.fst then
    d.map (fun p => if p.1 = k then (k, v) else p)
  else d ++ [(k, v)]

/-- `filter_items`, lines 254-270: the loop over `settings.items()` building
`new_settings`.  `key[0]` raises `IndexError` when `key` is the empty string. -/
def filter_items_loop (acc : Settings) : RawSettings → Except SessErr Settings
  | [] => .ok acc
  | (RawKey.int _, _) :: rest => filter_items_loop acc rest
  | (RawKey.str k, v) :: rest =>
    match k.data with
    | [] => .error .indexError
    | c :: _ =>
      if c.isLower then filter_items_loop (dictInsert acc k v) rest
      else filter_items_loop acc rest

/-- `filter_items(settings)`: removes all items whose key is not a string or
does not start with a lowercase letter. -/
def filter_items (settings : RawSettings) : Except SessErr Settings :=
  filter_items_loop [] settings

/-- `validate_settings(settings)`, lines 273-285: false iff some value is an
empty string (`if not value` on a string tests emptiness); booleans are
skipped by the `isinstance(value, str)` guard. -/
def validate_settings : Settings → Bool
  | [] => true
  | (_, Value.s v) :: rest => if v = "" then false else validate_settings rest
  | (_, Value.b _) :: rest => validate_settings rest

/-- `get_default_settings()`, lines 114-131; `datetime.now().year` is the
parameter `year`. -/
def get_default_settings (year : Nat) : Settings :=
  [ ("zettelkasten path", Value.s ""),
    ("site path", Value.s ""),
    ("site title", Value.s ""),
    ("copyright text", Value.s ("© " ++ toString year ++ ", your name")),
    ("site subfolder name", Value.s "pages"),
    ("body background color", Value.s "#fffafa"),
    ("header background color", Value.s "#81b622"),
    ("header text color", Value.s "#ecf87f"),
    ("header hover color", Value.s "#3d550c"),
    ("body link color", Value.s "#59981a"),
    ("body hover color", Value.s "#3d550c"),
    ("hide tags", Value.b true),
    ("hide chrono index dates", Value.b true) ]

/-- `save_settings(settings)`, lines 102-111: overwrites `settings.json`
unconditionally with the serialised mapping. -/
def save_settings (settings : Settings) (_file : Option Settings) : Option Settings :=
  some settings

/-- `create_text_chooser(name, settings)`, lines 183-199, restricted to its
effect on the settings dict: on `KeyError` the handler runs
`settings[name] = ""`, mutating the dict in place; the GUI elements it
returns play no further role. -/
def create_text_chooser (name : String) (settings : Settings) : Settings :=
  match dictGet settings name with
  | some _ => settings
  | none => dictInsert settings name (Value.s "")

/-- `create_checkbox(title, key_name, settings)`, lines 202-214: reads
`settings[key_name]` (raising `KeyError` if absent) and does not mutate. -/
def create_checkbox (_title : String) (key_name : String) (settings : Settings) :
    Except SessErr Unit :=
  match dictGet settings key_name with
  | some _ => .ok ()
  | none => .error .keyError

/-- `create_folder_chooser(name, settings)`, lines 217-232: reads
`settings[name]` (raising `KeyError` if absent) and does not mutate. -/
def create_folder_chooser (name : String) (settings : Settings) :
    Except SessErr Unit :=
  match dictGet settings name with
  | some _ => .ok ()
  | none => .error .keyError

/-- `create_color_chooser(name, settings)`, lines 235-251: reads
`settings[name]` (raising `KeyError` if absent) and does not mutate. -/
def create_color_chooser (name : String) (settings : Settings) :
    Except SessErr Unit :=
  match dictGet settings name with
  | some _ => .ok ()
  | none => .error .keyError

/-- `create_settings_window(settings)`, lines 134-180: builds the layout,
creating the three text choosers first (each may insert a missing key with
value `""`), then the folder choosers, checkboxes and color choosers (each may
raise `KeyError`; every possible failure in this chain is a `KeyError`, so the
model collapses "first exception wins" to a single `keyError`).  The result is
the final state of the settings dict the caller passed in. -/
def create_settings_window (settings : Settings) : Except SessErr Settings :=
  let s3 := create_text_chooser "site subfolder name"
              (create_text_chooser "copyright text"
                (create_text_chooser "site title" settings))
  match create_folder_chooser "site path" s3,
        create_folder_chooser "zettelkasten path" s3,
        create_checkbox "hide tags" "hide tags" s3,
        create_checkbox "hide dates in the chronological index"
          "hide chrono index dates" s3,
        create_color_chooser "body background color" s3,
        create_color_chooser "header background color" s3,
        create_color_chooser "header text color" s3,
        create_color_chooser "header hover color" s3,
        create_color_chooser "body link color" s3,
        create_color_chooser "body hover color" s3 with
  | .ok _, .ok _, .ok _, .ok _, .ok _, .ok _, .ok _, .ok _, .ok _, .ok _ => .ok s3
  | _, _, _, _, _, _, _, _, _, _ => .error .keyError

/-- An event returned by `window.read()`: `winClosed` is `sg.WIN_CLOSED`
(`None`), `button s` is the string event for button `s`. -/
inductive Event where
  | winClosed
  | button (name : String)
deriving DecidableEq, Repr

/-- The `while not settings_are_valid` loop of `show_settings_window`,
lines 22-27: read, filter, validate; on failure pop up the notice and loop.
Returns the final `(event, new_settings)` pair.  `blocked` models exhausting
the finite read script while the real loop would block on further input. -/
def session_loop : List (Event × RawSettings) → Except SessErr (Event × Settings)
  | [] => .error .blocked
  | (event, raw) :: rest =>
    match filter_items raw with
    | .error e => .error e
    | .ok new_settings =>
      if validate_settings new_settings then .ok (event, new_settings)
      else session_loop rest

instance {ε α : Type} [DecidableEq ε] [DecidableEq α] : DecidableEq (Except ε α)
  | .error e, .error f => decidable_of_iff (e = f) (by simp)
  | .error _, .ok _ => isFalse (by simp)
  | .ok _, .error _ => isFalse (by simp)
  | .ok a, .ok b => decidable_of_iff (a = b) (by simp)

/-- The observable outcome of a call: the value returned (or exception
propagated), the state of `settings.json` afterwards, and how many times
`window.close()` ran. -/
structure SessionTrace where
  result : Except SessErr Settings
  file : Option Settings
  closes : Nat
deriving DecidableEq, Repr

/-- Lines 20-31 of `show_settings_window`, from `create_settings_window`
onwards: run the validation loop, save unless the event was `cancel` or the
window-close signal, then `window.close()`.  An exception anywhere —
including `saveFails = true`, an I/O failure inside `save_settings` —
propagates before the `window.close()` line is reached, so `closes = 0` on
those paths. -/
def run_session (saveFails : Bool) (settings : Settings) (file : Option Settings)
    (reads : List (Event × RawSettings)) : SessionTrace :=
  match create_settings_window settings with
  | .error e => ⟨.error e, file, 0⟩
  | .ok _ =>
    match session_loop reads with
    | .error e => ⟨.error e, file, 0⟩
    | .ok (event, new_settings) =>
      if event ≠ Event.winClosed ∧ event ≠ Event.button "cancel" then
        if saveFails then ⟨.error .ioError, file, 0⟩
        else ⟨.ok new_settings, save_settings new_settings file, 1⟩
      else ⟨.ok new_settings, file, 1⟩

/-- Lines 86-93 for `fallback_option="default settings"`: read the file; a
missing file or one whose contents are falsy (the empty dict) falls back to
`get_default_settings()`.  This is exactly the `load_settings` call made at
line 19 of `show_settings_window`; it is split out because that call's
fallback is hard-coded to `"default settings"`, which never re-enters
`show_settings_window` — this breaks the source's mutual recursion, which is
vacuous on this path. -/
def load_settings_default (year : Nat) (file : Option Settings) : Settings :=
  match file with
  | some s => if s = [] then get_default_settings year else s
  | none => get_default_settings year

/-- `show_settings_window(settings=None)`, lines 7-31: a falsy argument
(`None` or the empty dict, line 18) is replaced by
`load_settings(fallback_option="default settings")`; then the window session
runs. -/
def show_settings_window (saveFails : Bool) (year : Nat)
    (settingsArg : Option Settings) (file : Option Settings)
    (reads : List (Event × RawSettings)) : SessionTrace :=
  let settings :=
    match settingsArg with
    | none => load_settings_default year file
    | some s => if s = [] then load_settings_default year file else s
  run_session saveFails settings file reads

/-- The fallback branch of `load_settings`, lines 91-97: defaults, prompt the
user, or `raise ValueError`. -/
def load_settings_fallback (saveFails : Bool) (year : Nat)
    (fallback_option : String) (file : Option Settings)
    (reads : List (Event × RawSettings)) : SessionTrace :=
  if fallback_option = "default settings" then
    ⟨.ok (get_default_settings year), file, 0⟩
  else if fallback_option = "prompt user" then
    show_settings_window saveFails year none file reads
  else ⟨.error .valueError, file, 0⟩

/-- `load_settings(fallback_option)`, lines 34-99: return the file's contents
when the file exists and parses to a truthy (non-empty) dict, otherwise take
the fallback branch. -/
def load_settings (saveFails : Bool) (year : Nat) (fallback_option : String)
    (file : Option Settings) (reads : List (Event × RawSettings)) : SessionTrace :=
  match file with
  | none => load_settings_fallback saveFails year fallback_option file reads
  | some s =>
    if s = [] then load_settings_fallback saveFails year fallback_option file reads
    else ⟨.ok s, file, 0⟩

/-- The schema: the fixed key set of the settings mapping (§3, §6 of the
design; the Returned Dictionary Items of `load_settings`). -/
def schema_keys : List String :=
  [ "zettelkasten path", "site path", "site title", "copyright text",
    "site subfolder name", "body background color", "header background color",
    "header text color", "header hover color", "body link color",
    "body hover color", "hide tags", "hide chrono index dates" ]

/-- Whether the first character of a string is a lowercase letter
(`key[0].islower()` on a non-empty string; false for the empty string). -/
def startsLower (s : String) : Bool :=
  match s.data with
  | [] => false
  | c :: _ => c.isLower

/-- The Result Filter contract as the spec words it (§4.2): keep exactly the
entries whose key is a string beginning with a lowercase letter, values and
order unchanged.  Stated separately from `filter_items` so the two can be
compared. -/
def lowercase_initial_entries (m : RawSettings) : Settings :=
  m.filterMap (fun p =>
    match p with
    | (RawKey.str k, v) => if startsLower k then some (k, v) else none
    | (RawKey.int _, _) => none)

/-- Embeds a filtered mapping back into the raw-mapping type, for applying
`filter_items` a second time. -/
def toRaw (s : Settings) : RawSettings :=
  s.map (fun p => (RawKey.str p.1, p.2))

/-- A concrete schema-conforming settings mapping with no blank values. -/
def sample_settings : Settings :=
  [ ("zettelkasten path", Value.s "/home/u/zk"),
    ("site path", Value.s "/home/u/site"),
    ("site title", Value.s "My Site"),
    ("copyright text", Value.s "© 2026, someone"),
    ("site subfolder name", Value.s "pages"),
    ("body background color", Value.s "#fffafa"),
    ("header background color", Value.s "#81b622"),
    ("header text color", Value.s "#ecf87f"),
    ("header hover color", Value.s "#3d550c"),
    ("body link color", Value.s "#59981a"),
    ("body hover color", Value.s "#3d550c"),
    ("hide tags", Value.b true),
    ("hide chrono index dates", Value.b false) ]

/-- A concrete raw `window.read()` mapping: the schema entries of
`sample_settings` plus toolkit-internal keys (a numeric index and a
capitalized button key), which filtering must drop. -/
def sample_raw : RawSettings :=
  toRaw sample_settings ++ [(RawKey.int 0, Value.s "general"), (RawKey.str "Browse", Value.s "")]

/-- `sample_settings` with the `"site title"` entry removed. -/
def sample_missing_title : Settings :=
  [ ("zettelkasten path", Value.s "/home/u/zk"),
    ("site path", Value.s "/home/u/site"),
    ("copyright text", Value.s "© 2026, someone"),
    ("site subfolder name", Value.s "pages"),
    ("body background color", Value.s "#fffafa"),
    ("header background color", Value.s "#81b622"),
    ("header text color", Value.s "#ecf87f"),
    ("header hover color", Value.s "#3d550c"),
    ("body link color", Value.s "#59981a"),
    ("body hover color", Value.s "#3d550c"),
    ("hide tags", Value.b true),
    ("hide chrono index dates", Value.b false) ]

/-- `String`s are their character lists: emptiness transfers. -/
lemma string_eq_empty_of_data_eq_nil {t : String} (h : t.data = []) : t = "" := by
  cases t with
  | mk d => cases h; rfl

/-- The keys after a dict assignment: unchanged when the key was present,
otherwise the key is appended. -/
lemma map_fst_dictInsert (d : Settings) (k : String) (v : Value) :
    (dictInsert d k v).map Prod.fst
      = if k ∈ d.map Prod.fst then d.map Prod.fst else d.map Prod.fst ++ [k] := by
  by_cases hk : k ∈ d.map Prod.fst
  · rw [if_pos hk]
    unfold dictInsert
    rw [if_pos hk, List.map_map]
    apply List.map_congr_left
    intro p _
    by_cases hp : p.1 = k
    · simp [hp]
    · simp [hp]
  · rw [if_neg hk]
    unfold dictInsert
    rw [if_neg hk]
    simp

/-- Dict assignment preserves key uniqueness. -/
lemma nodup_map_fst_dictInsert (d : Settings) (k : String) (v : Value)
    (h : (d.map Prod.fst).Nodup) : ((dictInsert d k v).map Prod.fst).Nodup := by
  by_cases hk : k ∈ d.map Prod.fst
  · rw [map_fst_dictInsert, if_pos hk]
    exact h
  · rw [map_fst_dictInsert, if_neg hk]
    exact h.append (List.nodup_singleton k)
      (by simpa [List.disjoint_singleton] using hk)

/-- A key present after a dict assignment was present before or is the
assigned key. -/
lemma mem_keys_dictInsert {d : Settings} {k k' : String} {v : Value}
    (h : k' ∈ (dictInsert d k v).map Prod.fst) :
    k' ∈ d.map Prod.fst ∨ k' = k := by
  rw [map_fst_dictInsert] at h
  by_cases hk : k ∈ d.map Prod.fst
  · rw [if_pos hk] at h
    exact .inl h
  · rw [if_neg hk] at h
    rcases List.mem_append.mp h with h | h
    · exact .inl h
    · simp at h
      exact .inr h

/-- Every key of a successful `filter_items_loop` result comes from the
accumulator or is a lowercase-initial string key of the remaining input. -/
lemma filter_items_loop_keys (m : RawSettings) : ∀ (acc s : Settings),
    filter_items_loop acc m = .ok s →
    ∀ k ∈ s.map Prod.fst,
      k ∈ acc.map Prod.fst
        ∨ (RawKey.str k ∈ m.map Prod.fst ∧ startsLower k = true) := by
  induction m with
  | nil =>
    intro acc s h k hk
    simp [filter_items_loop] at h
    subst h
    exact .inl hk
  | cons p rest ih =>
    intro acc s h k hk
    obtain ⟨q, v⟩ := p
    cases q with
    | int n =>
      rcases ih acc s (by simpa [filter_items_loop] using h) k hk with h1 | h2
      · exact .inl h1
      · exact .inr ⟨by simp [h2.1], h2.2⟩
    | str t =>
      rcases hc : t.data with _ | ⟨c, cs⟩
      · simp [filter_items_loop, hc] at h
      · by_cases hl : c.isLower
        · have h' : filter_items_loop (dictInsert acc t v) rest = .ok s := by
            simpa [filter_items_loop, hc, hl] using h
          rcases ih _ s h' k hk with h1 | h2
          · rcases mem_keys_dictInsert h1 with h3 | rfl
            · exact .inl h3
            · exact .inr ⟨by simp, by simp [startsLower, hc, hl]⟩
          · exact .inr ⟨by simp [h2.1], h2.2⟩
        · have h' : filter_items_loop acc rest = .ok s := by
            simpa [filter_items_loop, hc, hl] using h
          rcases ih acc s h' k hk with h1 | h2
          · exact .inl h1
          · exact .inr ⟨by simp [h2.1], h2.2⟩

/-- A successful `filter_items_loop` result has unique keys when the
accumulator does. -/
lemma filter_items_loop_nodup (m : RawSettings) : ∀ (acc s : Settings),
    filter_items_loop acc m = .ok s → (acc.map Prod.fst).Nodup →
    (s.map Prod.fst).Nodup := by
  induction m with
  | nil =>
    intro acc s h hacc
    simp [filter_items_loop] at h
    subst h
    exact hacc
  | cons p rest ih =>
    intro acc s h hacc
    obtain ⟨q, v⟩ := p
    cases q with
    | int n => exact ih acc s (by simpa [filter_items_loop] using h) hacc
    | str t =>
      rcases hc : t.data with _ | ⟨c, cs⟩
      · simp [filter_items_loop, hc] at h
      · by_cases hl : c.isLower
        · exact ih _ s (by simpa [filter_items_loop, hc, hl] using h)
            (nodup_map_fst_dictInsert acc t v hacc)
        · exact ih acc s (by simpa [filter_items_loop, hc, hl] using h) hacc

/-- On a raw mapping with unique keys, none of them the empty string, the
filter loop succeeds and appends exactly the lowercase-initial string-keyed
entries to the accumulator. -/
lemma filter_items_loop_append (m : RawSettings) : ∀ (acc : Settings),
    (∀ p ∈ m, p.1 ≠ RawKey.str "") →
    (m.map Prod.fst).Nodup →
    (∀ p ∈ m, ∀ t : String, p.1 = RawKey.str t → t ∉ acc.map Prod.fst) →
    filter_items_loop acc m = .ok (acc ++ lowercase_initial_entries m) := by
  induction m with
  | nil =>
    intro acc _ _ _
    simp [filter_items_loop, lowercase_initial_entries]
  | cons p rest ih =>
    intro acc hne hnd hdisj
    obtain ⟨q, v⟩ := p
    rw [List.map_cons, List.nodup_cons] at hnd
    obtain ⟨hhd, hnd'⟩ := hnd
    have hne' : ∀ p ∈ rest, p.1 ≠ RawKey.str "" :=
      fun p hp => hne p (List.mem_cons_of_mem _ hp)
    cases q with
    | int n =>
      have h' := ih acc hne' hnd'
        (fun p hp u hpu => hdisj p (List.mem_cons_of_mem _ hp) u hpu)
      simpa [filter_items_loop, lowercase_initial_entries] using h'
    | str t =>
      have ht : t ≠ "" :=
        fun h0 => hne (RawKey.str t, v) (List.mem_cons_self _ _) (by rw [h0])
      rcases hc : t.data with _ | ⟨c, cs⟩
      · exact absurd (string_eq_empty_of_data_eq_nil hc) ht
      · by_cases hl : c.isLower
        · have hmem : t ∉ acc.map Prod.fst :=
            hdisj (RawKey.str t, v) (List.mem_cons_self _ _) t rfl
          have hins : dictInsert acc t v = acc ++ [(t, v)] := by
            simp [dictInsert, hmem]
          have hdisj' : ∀ p ∈ rest, ∀ u : String,
              p.1 = RawKey.str u → u ∉ (acc ++ [(t, v)]).map Prod.fst := by
            intro p hp u hpu humem
            rw [List.map_append] at humem
            rcases List.mem_append.mp humem with h1 | h2
            · exact hdisj p (List.mem_cons_of_mem _ hp) u hpu h1
            · simp at h2
              subst h2
              exact hhd (List.mem_map.mpr ⟨p, hp, hpu⟩)
          have h' := ih (acc ++ [(t, v)]) hne' hnd' hdisj'
          rw [show filter_items_loop acc ((RawKey.str t, v) :: rest)
              = filter_items_loop (dictInsert acc t v) rest from by
                simp [filter_items_loop, hc, hl]]
          rw [hins, h']
          simp [lowercase_initial_entries, startsLower, hc, hl]
        · have h' := ih acc hne' hnd'
            (fun p hp u hpu => hdisj p (List.mem_cons_of_mem _ hp) u hpu)
          rw [show filter_items_loop acc ((RawKey.str t, v) :: rest)
              = filter_items_loop acc rest from by
                simp [filter_items_loop, hc, hl]]
          rw [h']
          simp [lowercase_initial_entries, startsLower, hc, hl]

/-- `filter_items` on a mapping with unique, non-empty-string keys returns
exactly the lowercase-initial string-keyed entries, values and order
unchanged. -/
lemma filter_items_eq_lowercase_entries (m : RawSettings)
    (hnd : (m.map Prod.fst).Nodup)
    (hne : ∀ p ∈ m, p.1 ≠ RawKey.str "") :
    filter_items m = .ok (lowercase_initial_entries m) := by
  have h := filter_items_loop_append m [] hne hnd (by simp)
  simpa [filter_items] using h

/-- On a mapping whose keys all satisfy `startsLower`, the spec-side filter
keeps everything. -/
lemma lowercase_initial_entries_toRaw (s : Settings)
    (h : ∀ p ∈ s, startsLower p.1 = true) :
    lowercase_initial_entries (toRaw s) = s := by
  induction s with
  | nil => rfl
  | cons p rest ih =>
    obtain ⟨k, v⟩ := p
    have hk : startsLower k = true := h (k, v) (List.mem_cons_self _ _)
    have ih' := ih (fun p hp => h p (List.mem_cons_of_mem _ hp))
    simp [toRaw, lowercase_initial_entries, hk] at ih' ⊢
    exact ih'

/-- Claim C2: `validate_settings` returns false iff some value is the empty
string; all-boolean mappings and mappings with only non-empty string values
always pass, and boolean values never cause failure. -/
theorem validate_settings_spec (s : Settings) :
    (validate_settings s = false ↔ ∃ k, (k, Value.s "") ∈ s)
    ∧ ((∀ p ∈ s, ∃ bv, p.2 = Value.b bv) → validate_settings s = true)
    ∧ ((∀ p ∈ s, ∀ v, p.2 = Value.s v → v ≠ "") → validate_settings s = true) := by
  have key : validate_settings s = false ↔ ∃ k, (k, Value.s "") ∈ s := by
    induction s with
    | nil => simp [validate_settings]
    | cons p rest ih =>
      obtain ⟨k, v⟩ := p
      cases v with
      | s str =>
        by_cases hs : str = ""
        · subst hs
          simp only [validate_settings, if_pos rfl, List.mem_cons]
          exact ⟨fun _ => ⟨k, Or.inl rfl⟩, fun _ => rfl⟩
        · have hs' : ¬("" = str) := fun he => hs he.symm
          simp [validate_settings, hs, hs', ih]
      | b bv => simp [validate_settings, ih]
  refine ⟨key, fun hb => ?_, fun hs => ?_⟩
  · cases hv : validate_settings s with
    | true => rfl
    | false =>
      obtain ⟨k, hk⟩ := key.mp hv
      obtain ⟨bv, hbv⟩ := hb (k, Value.s "") hk
      exact absurd hbv (by simp)
  · cases hv : validate_settings s with
    | true => rfl
    | false =>
      obtain ⟨k, hk⟩ := key.mp hv
      exact absurd rfl (hs (k, Value.s "") hk "" rfl)

theorem validate_settings_spec_witness :
    validate_settings [("site title", Value.s "")] = false
    ∧ validate_settings [("hide tags", Value.b false)] = true :=
  ⟨(validate_settings_spec [("site title", Value.s "")]).1.mpr ⟨"site title", by simp⟩,
   (validate_settings_spec [("hide tags", Value.b false)]).2.1 (by simp)⟩

/-- Claim C1: saving a schema-conforming mapping and then loading (with any
fallback option) returns exactly the saved mapping. -/
theorem settings_roundtrip (X : Settings) (h : (X.map Prod.fst).Perm schema_keys)
    (saveFails : Bool) (year : Nat) (fallback_option : String)
    (file₀ : Option Settings) (reads : List (Event × RawSettings)) :
    load_settings saveFails year fallback_option (save_settings X file₀) reads
      = ⟨.ok X, some X, 0⟩ := by
  have hX : X ≠ [] := by
    intro hnil
    subst hnil
    have := h.length_eq
    simp [schema_keys] at this
  simp [save_settings, load_settings, hX]

theorem settings_roundtrip_witness :
    load_settings false 2026 "default settings" (save_settings sample_settings none) []
      = ⟨.ok sample_settings, some sample_settings, 0⟩ :=
  settings_roundtrip sample_settings
    (by have hs : sample_settings.map Prod.fst = schema_keys := by decide
        rw [hs])
    false 2026 "default settings" none []

/-- Claim C3: a missing or empty file with the `"default settings"` fallback
loads the defaults; an existing non-empty mapping is returned exactly as
stored, with no key repair, for every fallback option. -/
theorem load_fallback_and_passthrough :
    (∀ (saveFails : Bool) (year : Nat) reads (file : Option Settings),
        file = none ∨ file = some ([] : Settings) →
        load_settings saveFails year "default settings" file reads
          = ⟨.ok (get_default_settings year), file, 0⟩)
    ∧ (∀ (saveFails : Bool) (year : Nat) reads (fallback_option : String) (M : Settings),
        M ≠ [] →
        load_settings saveFails year fallback_option (some M) reads
          = ⟨.ok M, some M, 0⟩) := by
  constructor
  · rintro sf year reads file (rfl | rfl) <;>
      simp [load_settings, load_settings_fallback]
  · intro sf year reads fb M hM
    simp [load_settings, hM]

theorem load_fallback_and_passthrough_witness :
    load_settings false 2026 "default settings" none []
      = ⟨.ok (get_default_settings 2026), none, 0⟩
    ∧ load_settings false 2026 "bogus" (some [("site title", Value.s "t")]) []
      = ⟨.ok [("site title", Value.s "t")], some [("site title", Value.s "t")], 0⟩ :=
  ⟨load_fallback_and_passthrough.1 false 2026 [] none (Or.inl rfl),
   load_fallback_and_passthrough.2 false 2026 [] "bogus" [("site title", Value.s "t")] (by simp)⟩

/-- Claim C6: with no persisted (or an empty) file, any fallback option other
than `"default settings"` and `"prompt user"` makes `load_settings` raise
`ValueError` immediately: no session is run, the file is untouched, and no
window is ever opened or closed. -/
theorem invalid_fallback_raises (saveFails : Bool) (year : Nat) reads
    (file : Option Settings) (fallback_option : String)
    (h1 : fallback_option ≠ "default settings")
    (h2 : fallback_option ≠ "prompt user")
    (h3 : file = none ∨ file = some ([] : Settings)) :
    load_settings saveFails year fallback_option file reads
      = ⟨.error .valueError, file, 0⟩ := by
  rcases h3 with rfl | rfl <;>
    simp [load_settings, load_settings_fallback, h1, h2]

theorem invalid_fallback_raises_witness :
    load_settings false 2026 "bogus" none [] = ⟨.error .valueError, none, 0⟩ :=
  invalid_fallback_raises false 2026 [] none "bogus" (by decide) (by decide) (Or.inl rfl)

/-- Claim C10: a missing, `None` or empty settings argument makes
`show_settings_window` start from `load_settings` with the
`"default settings"` fallback (an explicitly passed empty mapping is
discarded), and the `"prompt user"` fallback runs exactly one session,
started from the defaults, so the mutual recursion stops after one prompt. -/
theorem show_window_default_start :
    (∀ (saveFails : Bool) (year : Nat) (file : Option Settings) reads,
        show_settings_window saveFails year none file reads
          = run_session saveFails (load_settings_default year file) file reads)
    ∧ (∀ (saveFails : Bool) (year : Nat) (file : Option Settings) reads,
        show_settings_window saveFails year (some ([] : Settings)) file reads
          = show_settings_window saveFails year none file reads)
    ∧ (∀ (saveFails : Bool) (year : Nat) reads (file : Option Settings),
        file = none ∨ file = some ([] : Settings) →
        load_settings saveFails year "prompt user" file reads
          = run_session saveFails (get_default_settings year) file reads) := by
  refine ⟨fun _ _ _ _ => rfl, fun _ _ _ _ => rfl, ?_⟩
  rintro sf year reads file (rfl | rfl) <;>
    simp [load_settings, load_settings_fallback, show_settings_window,
      load_settings_default]

/-- Claim C4 counterexample: on a raw mapping with an empty-string key,
`filter_items` does not return a mapping at all: `key[0]` raises
`IndexError`, although per the claim the entry (whose key does not begin
with a lowercase letter) should simply be dropped. -/
theorem filter_items_raises_on_empty_string_key :
    filter_items [(RawKey.str "", Value.b true)] = .error .indexError
    ∧ filter_items [(RawKey.str "", Value.b true)]
        ≠ .ok (lowercase_initial_entries [(RawKey.str "", Value.b true)]) := by
  decide

/-- Claim C4 (amended): for every raw key-to-value mapping none of whose keys
is the empty string, `filter_items` returns exactly those entries of the
input whose key is a string beginning with a lowercase letter, with values
unchanged, in the input's insertion order (an empty-string key instead
raises `IndexError`). -/
theorem filter_items_keeps_lowercase_string_keys (m : RawSettings)
    (hnd : (m.map Prod.fst).Nodup)
    (hne : ∀ p ∈ m, p.1 ≠ RawKey.str "") :
    filter_items m = .ok (lowercase_initial_entries m) :=
  filter_items_eq_lowercase_entries m hnd hne

theorem filter_items_keeps_lowercase_string_keys_witness :
    filter_items sample_raw = .ok (lowercase_initial_entries sample_raw) :=
  filter_items_keeps_lowercase_string_keys sample_raw (by decide) (by decide)

/-- Claim C5: applying `filter_items` twice yields the same result as
applying it once, and every entry of a successful output has a
lowercase-initial string key that occurs as a key of the input. -/
theorem filter_items_idempotent (m : RawSettings) :
    (filter_items m).bind (fun s => filter_items (toRaw s)) = filter_items m
    ∧ (∀ s, filter_items m = .ok s →
        ∀ p ∈ s, startsLower p.1 = true ∧ RawKey.str p.1 ∈ m.map Prod.fst) := by
  have hkeys : ∀ s, filter_items m = .ok s →
      ∀ p ∈ s, startsLower p.1 = true ∧ RawKey.str p.1 ∈ m.map Prod.fst := by
    intro s hs p hp
    have hk := filter_items_loop_keys m [] s hs p.1 (List.mem_map_of_mem Prod.fst hp)
    rcases hk with h1 | h2
    · simp at h1
    · exact ⟨h2.2, h2.1⟩
  refine ⟨?_, hkeys⟩
  rcases hm : filter_items m with e | s
  · rfl
  · have hlower : ∀ p ∈ s, startsLower p.1 = true := fun p hp => (hkeys s hm p hp).1
    have hnd : (s.map Prod.fst).Nodup := filter_items_loop_nodup m [] s hm (by simp)
    have hraw_nd : ((toRaw s).map Prod.fst).Nodup := by
      have hmm : (toRaw s).map Prod.fst = (s.map Prod.fst).map RawKey.str := by
        simp [toRaw, List.map_map]
      rw [hmm]
      exact hnd.map (fun a b hab => by injection hab)
    have hraw_ne : ∀ p ∈ toRaw s, p.1 ≠ RawKey.str "" := by
      intro p hp h0
      obtain ⟨q, hq, rfl⟩ := List.mem_map.mp hp
      have hq1 : q.1 = "" := by injection h0
      have hql := hlower q hq
      rw [hq1] at hql
      exact (by decide : startsLower "" ≠ true) hql
    have h2 := filter_items_eq_lowercase_entries (toRaw s) hraw_nd hraw_ne
    rw [lowercase_initial_entries_toRaw s hlower] at h2
    simp [Except.bind, h2]

theorem filter_items_idempotent_witness :
    (filter_items sample_raw).bind (fun s => filter_items (toRaw s))
      = filter_items sample_raw
    ∧ (startsLower "site title" = true
        ∧ RawKey.str "site title" ∈ sample_raw.map Prod.fst) :=
  ⟨(filter_items_idempotent sample_raw).1,
   (filter_items_idempotent sample_raw).2 sample_settings (by decide)
     ("site title", Value.s "My Site") (by decide)⟩

/-- Claim C7: in a session whose triggering event is `"cancel"` (or the
window-close signal) and whose form values pass filtering and validation,
`show_settings_window` returns the filtered mapping to the caller while the
persisted file is left exactly as it was before the session. -/
theorem cancel_returns_without_saving (saveFails : Bool) (year : Nat)
    (settings f : Settings) (raw : RawSettings) (file : Option Settings)
    (event : Event)
    (hne : settings ≠ [])
    (hw : ∃ s', create_settings_window settings = .ok s')
    (hf : filter_items raw = .ok f)
    (hv : validate_settings f = true)
    (he : event = Event.button "cancel" ∨ event = Event.winClosed) :
    show_settings_window saveFails year (some settings) file [(event, raw)]
      = ⟨.ok f, file, 1⟩ := by
  obtain ⟨s', hw⟩ := hw
  rcases he with rfl | rfl <;>
    simp [show_settings_window, hne, run_session, hw, session_loop, hf, hv]

theorem cancel_returns_without_saving_witness :
    show_settings_window false 2026 (some sample_settings) none
        [(Event.button "cancel", sample_raw)]
      = ⟨.ok sample_settings, none, 1⟩ :=
  cancel_returns_without_saving false 2026 sample_settings sample_settings
    sample_raw none (Event.button "cancel") (by decide)
    ⟨sample_settings, by decide⟩ (by decide) (by decide) (Or.inl rfl)

/-- Claim C9 counterexample: when persisting fails (`saveFails = true`) on the
save path of a session with valid values, the exception propagates before the
`window.close()` line, so the window is released zero times, not exactly
once. -/
theorem save_failure_skips_window_close :
    run_session true sample_settings none [(Event.button "save", sample_raw)]
      = ⟨.error .ioError, none, 0⟩ := by decide

/-- Claim C9 (amended): on every exit path that raises no exception — save
with successful persistence, cancel, or window-close — the window is released
exactly once; a failure while persisting instead propagates before the
finalization line, leaving the window unreleased. -/
theorem window_closed_once_on_normal_exit (settings : Settings)
    (file : Option Settings) (reads : List (Event × RawSettings))
    (s' ns : Settings) (event : Event)
    (hw : create_settings_window settings = .ok s')
    (hloop : session_loop reads = .ok (event, ns)) :
    (run_session false settings file reads).closes = 1 := by
  simp only [run_session, hw, hloop]
  split <;> rfl

theorem window_closed_once_on_normal_exit_witness :
    (run_session false sample_settings none
        [(Event.button "save", sample_raw)]).closes = 1 :=
  window_closed_once_on_normal_exit sample_settings none
    [(Event.button "save", sample_raw)] sample_settings sample_settings
    (Event.button "save") (by decide) (by decide)

/-- Claim C8 counterexample: window construction mutates the settings mapping
in place: with the `"site title"` key absent, `create_text_chooser`'s
`KeyError` handler runs `settings[name] = ""`, so the dict the caller passed
in ends the construction with an extra entry. -/
theorem window_build_mutates_input :
    create_settings_window sample_missing_title
      = .ok (sample_missing_title ++ [("site title", Value.s "")])
    ∧ sample_missing_title ++ [("site title", Value.s "")] ≠ sample_missing_title := by
  decide

/-- Claim C8 (amended): during an edit session the settings mapping is never
mutated in place by filtering or validation (both are pure), and window
construction leaves it unchanged provided the three text-chooser keys
(`"site title"`, `"copyright text"`, `"site subfolder name"`) are present;
when one of them is absent, construction inserts it in place with an
empty-string value. -/
theorem window_build_preserves_input (settings : Settings)
    (h1 : dictGet settings "site title" ≠ none)
    (h2 : dictGet settings "copyright text" ≠ none)
    (h3 : dictGet settings "site subfolder name" ≠ none) :
    create_settings_window settings = .error .keyError
    ∨ create_settings_window settings = .ok settings := by
  have e1 : create_text_chooser "site title" settings = settings := by
    rcases hd : dictGet settings "site title" with _ | v
    · exact absurd hd h1
    · simp [create_text_chooser, hd]
  have e2 : create_text_chooser "copyright text" settings = settings := by
    rcases hd : dictGet settings "copyright text" with _ | v
    · exact absurd hd h2
    · simp [create_text_chooser, hd]
  have e3 : create_text_chooser "site subfolder name" settings = settings := by
    rcases hd : dictGet settings "site subfolder name" with _ | v
    · exact absurd hd h3
    · simp [create_text_chooser, hd]
  have key : create_settings_window settings
      = (match create_folder_chooser "site path" settings,
              create_folder_chooser "zettelkasten path" settings,
              create_checkbox "hide tags" "hide tags" settings,
              create_checkbox "hide dates in the chronological index"
                "hide chrono index dates" settings,
              create_color_chooser "body background color" settings,
              create_color_chooser "header background color" settings,
              create_color_chooser "header text color" settings,
              create_color_chooser "header hover color" settings,
              create_color_chooser "body link color" settings,
              create_color_chooser "body hover color" settings with
          | .ok _, .ok _, .ok _, .ok _, .ok _, .ok _, .ok _, .ok _, .ok _, .ok _ =>
            Except.ok settings
          | _, _, _, _, _, _, _, _, _, _ => Except.error SessErr.keyError) := by
    simp only [create_settings_window]
    rw [e1, e2, e3]
  rw [key]
  split
  · right; rfl
  · left; rfl

theorem window_build_preserves_input_witness :
    create_settings_window sample_settings = .error .keyError
    ∨ create_settings_window sample_settings = .ok sample_settings :=
  window_build_preserves_input sample_settings (by decide) (by decide) (by decide)

theorem show_window_default_start_witness :
    show_settings_window false 2026 (some ([] : Settings)) none []
      = show_settings_window false 2026 none none []
    ∧ load_settings false 2026 "prompt user" none []
      = run_session false (get_default_settings 2026) none [] :=
  ⟨show_window_default_start.2.1 false 2026 none [],
   show_window_default_start.2.2 false 2026 [] none (Or.inl rfl)⟩
